import Mathlib

/-!
Shallow embedding of the bridge coordinator front end of the newdex
repository: the transfer classification and submission flow of the Bridge
component (handleBridge), the ledger-gateway hooks of useBridgeContract
(lockTokens, burnAndBridge, getTransaction, getUserTransactions,
estimateBridgeFee, checkFeeRequirements) and the fee-requirement gating of
the bridge button.

Chain interactions are modelled by passing the response of the ledger
explicitly: a value of type Except Unit A stands for a contract call that
either returns an A or throws. Amounts appear in two representations,
exactly as in the source: human decimal amounts (output of parseFloat) as
rationals, and scaled wei integers (output of ethers.parseEther) as
naturals; the source converts between the two only at its boundary.
-/

/-- Token metadata as used by the bridge component; chainId is the chain the
token entry belongs to, which the classification branch compares with the
connected chain. -/
structure Token where
  address : String
  chainId : Nat
  symbol : String
  decimals : Nat
deriving DecidableEq

/-- TransferKind of the spec: lock on the home chain, burn-and-mint
elsewhere. -/
inductive TransferKind
  | Lock
  | BurnAndMint
deriving DecidableEq

/-- Classification branch of handleBridge: the source computes
isNativeToken as the equality of the chainId field of the token with the
connected chain id, and takes the lock path when it holds, the burn path
otherwise. -/
def classify (token : Token) (sourceChain : Nat) : TransferKind :=
  if token.chainId = sourceChain then .Lock else .BurnAndMint

/-- A value-moving submission issued to the bridge contract by
handleBridge. -/
inductive SubmitOp
  | lock (token : String) (amount : ℚ) (targetChain : Nat) (dest : String)
  | burn (token : String) (amount : ℚ) (targetChain : Nat) (dest : String)
deriving DecidableEq

/-- Outcome of handleBridge as observed by the user. -/
inductive BridgeOutcome
  | notConnected
  | invalidAmount
  | noTokenSelected
  | initiated (op : SubmitOp)
deriving DecidableEq

/-- The inputs handleBridge reads from component state. The amount field is
the parseFloat of the amount input; none models an empty or unparsable
input. -/
structure BridgeRequest where
  isConnected : Bool
  amount : Option ℚ
  selectedToken : String
  chainId : Nat
  toChainId : Nat
  destinationAddress : String
  account : String
deriving DecidableEq

/-- Token lookup of handleBridge over the available token list. -/
def findToken (tokens : List Token) (addr : String) : Option Token :=
  tokens.find? (fun t => t.address == addr)

/-- Destination defaulting in handleBridge: the destination address input,
or the connected account when that input is empty. -/
def destOf (r : BridgeRequest) : String :=
  if r.destinationAddress = "" then r.account else r.destinationAddress

/-- handleBridge: the guard sequence (connection, positive amount, token
selected) followed by the classification branch, returning the user-visible
outcome together with the list of submissions issued to the ledger. -/
def handleBridge (tokens : List Token) (r : BridgeRequest) :
    BridgeOutcome × List SubmitOp :=
  if r.isConnected = false then (.notConnected, [])
  else
    match r.amount with
    | none => (.invalidAmount, [])
    | some a =>
      if a ≤ 0 then (.invalidAmount, [])
      else if r.selectedToken = "" then (.noTokenSelected, [])
      else
        let destination := destOf r
        let isNativeToken : Bool :=
          match findToken tokens r.selectedToken with
          | some t => t.chainId == r.chainId
          | none => false
        if isNativeToken then
          (.initiated (.lock r.selectedToken a r.toChainId destination),
            [.lock r.selectedToken a r.toChainId destination])
        else
          (.initiated (.burn r.selectedToken a r.toChainId destination),
            [.burn r.selectedToken a r.toChainId destination])

/-- Chain interactions issued by the ledger-gateway hooks, in order. -/
inductive LedgerEvent
  | readAllowance (owner spender : String)
  | approve (spender : String) (amountWei : Nat)
  | awaitApproveConfirm
  | lockCall (token : String) (amountWei : Nat) (targetChain : Nat) (dest : String)
  | burnCall (token : String) (amountWei : Nat) (targetChain : Nat) (dest : String)
deriving DecidableEq

/-- The ordered chain calls of lockTokens: read the current allowance of the
account for the bridge address, issue an approval for the full amount and
await its confirmation only when the allowance is short, then issue the
lockTokens call on the bridge contract. The allowanceWei argument is the
answer of the ledger to the allowance read. -/
def lockTokensTrace (account bridgeAddress tokenAddress : String)
    (allowanceWei amountWei : Nat) (targetChain : Nat) (dest : String) :
    List LedgerEvent :=
  LedgerEvent.readAllowance account bridgeAddress ::
    ((if allowanceWei < amountWei then
        [LedgerEvent.approve bridgeAddress amountWei,
          LedgerEvent.awaitApproveConfirm]
      else []) ++
      [LedgerEvent.lockCall tokenAddress amountWei targetChain dest])

/-- The ordered chain calls of burnAndBridge: the burn call is issued
directly, with no preceding allowance read or approval. -/
def burnAndBridgeTrace (tokenAddress : String) (amountWei : Nat)
    (targetChain : Nat) (dest : String) : List LedgerEvent :=
  [LedgerEvent.burnCall tokenAddress amountWei targetChain dest]

/-- Recognizer for allowance-read events in a trace. -/
def isReadAllowance : LedgerEvent → Bool
  | .readAllowance _ _ => true
  | _ => false

/-- Recognizer for approval events in a trace. -/
def isApprove : LedgerEvent → Bool
  | .approve _ _ => true
  | _ => false

/-- JS coercion in estimateBridgeFee (tokenInfo.fee or-else 250): a zero or
absent fee field falls back to the default 250 basis points. -/
def feeRateOf (feeField : Nat) : Nat :=
  if feeField = 0 then 250 else feeField

/-- estimateBridgeFee on wei amounts. The ledger argument is the result of
the supportedTokens call: some feeField on success (an absent field encoded
as 0, exactly as the falsy coercion treats it), none when the call throws.
The source formats the resulting wei value back to a decimal string at the
boundary. -/
def estimateBridgeFee (ledger : Option Nat) (amountWei : Nat) : Nat :=
  match ledger with
  | some feeField => amountWei * feeRateOf feeField / 10000
  | none => amountWei * 250 / 10000

/-- The bridge-info panel of the Bridge component: the flat fee line and the
token-fee line are two separate rows. -/
structure FeeDisplay where
  flatFeeLabel : String
  tokenFeeWei : Nat
deriving DecidableEq

/-- Rendering of the two fee rows: the flat fee is the fixed 3 USDT label,
the token fee is the estimate. -/
def bridgeFeeDisplay (tokenFeeWei : Nat) : FeeDisplay :=
  ⟨"$3 USDT", tokenFeeWei⟩

/-- BridgeStatus enum of the source, with its numeric codes. -/
inductive BridgeStatus
  | Pending
  | Locked
  | Released
  | Completed
  | Failed
deriving DecidableEq

/-- Numeric status codes: 0 Pending, 1 Locked, 2 Released, 3 Completed,
4 Failed. -/
def BridgeStatus.toNat : BridgeStatus → Nat
  | .Pending => 0
  | .Locked => 1
  | .Released => 2
  | .Completed => 3
  | .Failed => 4

/-- Raw ledger record behind getTransaction; none fields model absent or
falsy struct members, and the status is the raw numeric code. -/
structure RawLedgerTx where
  txId : Option String
  user : Option String
  token : Option String
  amount : Option Nat
  fee : Option Nat
  sourceChain : Option Nat
  targetChain : Option Nat
  targetAddress : Option String
  timestamp : Option Nat
  status : Option Nat
deriving DecidableEq

/-- BridgeTransaction as returned to callers; amounts stay in wei here and
are formatted only at the UI boundary. The numeric status code is kept raw,
as the source casts it to the enum unchecked. -/
structure BridgeTransaction where
  txId : String
  user : String
  token : String
  amount : Nat
  fee : Nat
  sourceChain : Nat
  targetChain : Nat
  targetAddress : String
  timestamp : Nat
  status : Nat
deriving DecidableEq

/-- The object getTransaction synthesizes when the contract is unavailable
or the ledger read throws: empty fields, zero amounts and status code 0. -/
def defaultTransaction (txId : String) : BridgeTransaction :=
  ⟨txId, "", "", 0, 0, 0, 0, "", 0, BridgeStatus.Pending.toNat⟩

/-- getTransaction: field-by-field defaulting of a successful ledger read,
and the synthesized default record when the contract is unavailable or the
read throws. -/
def getTransaction (contractAvailable : Bool) (txId : String)
    (ledger : Except Unit RawLedgerTx) : BridgeTransaction :=
  if contractAvailable = false then defaultTransaction txId
  else
    match ledger with
    | .ok tx =>
      ⟨tx.txId.getD txId, tx.user.getD "", tx.token.getD "",
        tx.amount.getD 0, tx.fee.getD 0, tx.sourceChain.getD 0,
        tx.targetChain.getD 0, tx.targetAddress.getD "",
        tx.timestamp.getD 0, tx.status.getD 0⟩
    | .error _ => defaultTransaction txId

/-- getUserTransactions: the single enumeration call of the hook; every
failure path (contract unavailable, no address, ledger throw) collapses to
the empty list. -/
def getUserTransactions (contractAvailable : Bool) (address : String)
    (ledger : Except Unit (List String)) : List String :=
  if contractAvailable = false then []
  else if address = "" then []
  else
    match ledger with
    | .ok txs => txs
    | .error _ => []

/-- loadUserTransactions: the state update of the transaction list in the
Bridge component; with no account the previous list is kept, otherwise the
state becomes whatever getUserTransactions returns. -/
def loadUserTransactions (prev : List String) (account : String)
    (contractAvailable : Bool) (ledger : Except Unit (List String)) :
    List String :=
  if account = "" then prev
  else getUserTransactions contractAvailable account ledger

/-- Result record of checkFeeRequirements: two independent booleans plus the
raw balance and allowance figures. -/
structure FeeStatus where
  hasBalance : Bool
  hasAllowance : Bool
  balance : Nat
  allowance : Nat
deriving DecidableEq

/-- checkFeeRequirements (the same shape in the bridge hook and the dex
hook): throws when the contract or the address is missing, and swallows a
failing contract call into the all-false, all-zero record. -/
def checkFeeRequirements (contractAvailable : Bool) (address : String)
    (ledger : Except Unit FeeStatus) : Except String FeeStatus :=
  if contractAvailable = false then .error "Bridge contract not available"
  else if address = "" then .error "No address provided"
  else
    match ledger with
    | .ok s => .ok s
    | .error _ => .ok ⟨false, false, 0, 0⟩

/-- checkUSDTFeeRequirements in the Bridge component: turns the result of
the fee check into the warning string that gates the bridge button. -/
def usdtFeeWarning (res : Except String FeeStatus) : String :=
  match res with
  | .ok s =>
    if !s.hasBalance || !s.hasAllowance then
      "You need $3 USDT balance and approval for bridge fees"
    else ""
  | .error _ => "Unable to verify USDT fee requirements"

/-- Disabled condition of the bridge button: empty amount, no token, not
connected, already bridging, or a non-empty fee warning. -/
def bridgeButtonDisabled (amount selectedToken : String)
    (isConnected isBridging : Bool) (feeWarning : String) : Bool :=
  amount == "" || selectedToken == "" || !isConnected || isBridging ||
    feeWarning != ""

/-- C1: the transfer is classified as Lock exactly when the home chain of
the token equals the source chain, and as BurnAndMint otherwise; under the
guards of handleBridge the submission issued is the lock call in exactly
the Lock case and the burn call otherwise, and the classification reads
only the token and the source chain. -/
theorem classify_lock_iff_home (tokens : List Token) (r : BridgeRequest)
    (t : Token) (a : ℚ) (hc : r.isConnected = true) (ha : r.amount = some a)
    (hpos : 0 < a) (hs : r.selectedToken ≠ "")
    (hf : findToken tokens r.selectedToken = some t) :
    (classify t r.chainId = TransferKind.Lock ↔ t.chainId = r.chainId) ∧
    (classify t r.chainId = TransferKind.BurnAndMint ↔ t.chainId ≠ r.chainId) ∧
    (handleBridge tokens r).2 =
      [match classify t r.chainId with
        | TransferKind.Lock => SubmitOp.lock r.selectedToken a r.toChainId (destOf r)
        | TransferKind.BurnAndMint => SubmitOp.burn r.selectedToken a r.toChainId (destOf r)] := by
  have hA : ¬ a ≤ 0 := not_le.mpr hpos
  by_cases h : t.chainId = r.chainId
  · simp [classify, handleBridge, hc, ha, hA, hs, hf, h]
  · simp [classify, handleBridge, hc, ha, hA, hs, hf, h]

/-- C1 witness: a concrete native-token request takes the lock path. -/
theorem classify_lock_iff_home_witness :
    (handleBridge [(⟨"0xA", 1, "TOK", 18⟩ : Token)]
        ⟨true, some 5, "0xA", 1, 56, "", "0xme"⟩).2 =
      [SubmitOp.lock "0xA" 5 56 "0xme"] := by
  have h := classify_lock_iff_home [(⟨"0xA", 1, "TOK", 18⟩ : Token)]
    ⟨true, some 5, "0xA", 1, 56, "", "0xme"⟩ ⟨"0xA", 1, "TOK", 18⟩ 5
    rfl rfl (by norm_num) (by decide) (by decide)
  simpa [classify, destOf] using h.2.2

/-- C2 counterexample: the burn-and-mint submit path issues its value-moving
call with no allowance read and no approval at all. -/
theorem burnAndBridge_no_allowance_read :
    ((burnAndBridgeTrace "0xTOK" 500 56 "0xDEST").any isReadAllowance = false) ∧
    ((burnAndBridgeTrace "0xTOK" 500 56 "0xDEST").any isApprove = false) :=
  ⟨rfl, rfl⟩

/-- C2 amended: only the lock path runs the authorization sub-protocol — it
reads the allowance first, and exactly when the allowance is short it issues
an approval for the amount and awaits its confirmation before the lock
call; the burn-and-mint path issues the burn call directly with no
allowance read or approval. -/
theorem submit_authorization_order (account bridgeAddress tokenAddress dest : String)
    (allowanceWei amountWei targetChain : Nat) :
    (lockTokensTrace account bridgeAddress tokenAddress allowanceWei amountWei targetChain dest =
      if allowanceWei < amountWei then
        [LedgerEvent.readAllowance account bridgeAddress,
          LedgerEvent.approve bridgeAddress amountWei,
          LedgerEvent.awaitApproveConfirm,
          LedgerEvent.lockCall tokenAddress amountWei targetChain dest]
      else
        [LedgerEvent.readAllowance account bridgeAddress,
          LedgerEvent.lockCall tokenAddress amountWei targetChain dest]) ∧
    burnAndBridgeTrace tokenAddress amountWei targetChain dest =
      [LedgerEvent.burnCall tokenAddress amountWei targetChain dest] := by
  constructor
  · by_cases h : allowanceWei < amountWei <;> simp [lockTokensTrace, h]
  · rfl

/-- C3 counterexample: the fallback quote carries no flag — at 40000 wei the
fallback estimate and a ledger-quoted 250 bps estimate are the same bare
number, so the caller cannot distinguish them. -/
theorem estimateBridgeFee_fallback_unflagged :
    (estimateBridgeFee none 40000 = estimateBridgeFee (some 250) 40000) ∧
    estimateBridgeFee none 40000 = 1000 :=
  ⟨rfl, rfl⟩

/-- C3 amended: when the ledger cannot report a fee record the quote equals
exactly amount times 250 over 10000, but it is returned as a bare amount
with no fallback flag, coinciding with a ledger-quoted 250 bps fee. -/
theorem estimateBridgeFee_fallback (amountWei : Nat) :
    (estimateBridgeFee none amountWei = amountWei * 250 / 10000) ∧
    estimateBridgeFee none amountWei = estimateBridgeFee (some 250) amountWei := by
  constructor
  · rfl
  · simp [estimateBridgeFee, feeRateOf]

/-- C4 counterexample: a throwing ledger read is converted into a successful
transaction record whose status code is the synthesized Pending. -/
theorem getTransaction_failure_synthesizes :
    (getTransaction true "0xabc" (Except.error ()) = defaultTransaction "0xabc") ∧
    (defaultTransaction "0xabc").status = BridgeStatus.Pending.toNat :=
  ⟨rfl, rfl⟩

/-- C4 amended: for every handle, a failed ledger read is swallowed — the
call returns the default record for that handle (status code Pending, empty
fields) instead of an error; the hook keeps no local cache, so nothing else
is modified. -/
theorem getTransaction_error_default (txId : String) (e : Unit) :
    (getTransaction true txId (Except.error e) = defaultTransaction txId) ∧
    (defaultTransaction txId).status = BridgeStatus.Pending.toNat ∧
    (defaultTransaction txId).txId = txId :=
  ⟨rfl, rfl, rfl⟩

/-- C5 counterexample: a failing enumeration read discards the previously
loaded handles and yields the empty list — no per-item error entries exist
in the result. -/
theorem loadUserTransactions_failure_discards :
    loadUserTransactions ["0xabc", "0xdef"] "0xme" true (Except.error ()) = [] :=
  rfl

/-- C5 amended: the refresh is a single enumeration call with no per-handle
reads, so there is no per-item isolation: on success the state becomes the
returned list, and on a ledger failure it becomes the empty list, replacing
any previously loaded handles; no per-item error list exists. -/
theorem loadUserTransactions_all_or_nothing (prev : List String)
    (account : String) (ledger : Except Unit (List String))
    (h : account ≠ "") :
    loadUserTransactions prev account true ledger =
      match ledger with
      | .ok txs => txs
      | .error _ => [] := by
  cases ledger <;> simp [loadUserTransactions, getUserTransactions, h]

/-- C5 witness: a concrete failing refresh yields the empty list. -/
theorem loadUserTransactions_all_or_nothing_witness :
    loadUserTransactions ["0xabc"] "0xme" true (Except.error ()) = [] := by
  simpa using
    loadUserTransactions_all_or_nothing ["0xabc"] "0xme" (Except.error ()) (by decide)

/-- C6 counterexample: with a ledger-reported fee rate of 0 bps the computed
fee is 250 bps of the amount, not 0 over 10000 of it. -/
theorem fee_zero_rate_not_proportional :
    estimateBridgeFee (some 0) (1000 * 10 ^ 18) ≠ 1000 * 10 ^ 18 * 0 / 10000 := by
  norm_num [estimateBridgeFee, feeRateOf]

/-- C6 amended: for every amount and every nonzero ledger-reported rate r,
the token fee equals exactly amountWei times r over 10000 in integer
arithmetic; at 1000 tokens (10 to the 21 wei) and 250 bps the fee is 25
tokens (25 times 10 to the 18 wei); and the flat 3 USDT fee is a display
field separate from the token fee. -/
theorem fee_proportional (amountWei r : Nat) (h : r ≠ 0) :
    (estimateBridgeFee (some r) amountWei = amountWei * r / 10000) ∧
    (estimateBridgeFee (some 250) (1000 * 10 ^ 18) = 25 * 10 ^ 18) ∧
    ((bridgeFeeDisplay (estimateBridgeFee (some r) amountWei)).flatFeeLabel = "$3 USDT") ∧
    (bridgeFeeDisplay (estimateBridgeFee (some r) amountWei)).tokenFeeWei =
      estimateBridgeFee (some r) amountWei := by
  refine ⟨?_, ?_, rfl, rfl⟩
  · simp [estimateBridgeFee, feeRateOf, h]
  · norm_num [estimateBridgeFee, feeRateOf]

/-- C6 witness: the proportional fee at one token and 250 bps. -/
theorem fee_proportional_witness :
    estimateBridgeFee (some 250) (10 ^ 18) = 10 ^ 18 * 250 / 10000 :=
  (fee_proportional (10 ^ 18) 250 (by norm_num)).1

/-- C7: the fee check returns independent balance and allowance booleans,
and the bridge button is enabled only when the warning derived from them is
empty: an enabled button implies both booleans were true, and a false
boolean blocks initiation through the warning precondition, not through an
error. -/
theorem checkRequirements_gates (s : FeeStatus) (amount tok : String)
    (isBridging : Bool)
    (h : bridgeButtonDisabled amount tok true isBridging
      (usdtFeeWarning (Except.ok s)) = false) :
    s.hasBalance = true ∧ s.hasAllowance = true := by
  have hw : usdtFeeWarning (Except.ok s) = "" := by
    by_contra hne
    have hb : (usdtFeeWarning (Except.ok s) != "") = true := bne_iff_ne.mpr hne
    simp [bridgeButtonDisabled, hb] at h
  by_cases hb : s.hasBalance = true <;> by_cases ha : s.hasAllowance = true
  · exact ⟨hb, ha⟩
  all_goals simp [usdtFeeWarning, hb, ha] at hw

/-- C7 witness: with both booleans true the button is enabled and the
theorem recovers them. -/
theorem checkRequirements_gates_witness :
    FeeStatus.hasBalance ⟨true, true, 5, 5⟩ = true ∧
    FeeStatus.hasAllowance ⟨true, true, 5, 5⟩ = true :=
  checkRequirements_gates ⟨true, true, 5, 5⟩ "1" "0xA" false (by decide)

/-- C8 counterexample: a same-chain request (source chain 1, destination
chain 1) is not rejected — handleBridge still issues the lock submission. -/
theorem handleBridge_sameChain_submits :
    handleBridge [(⟨"0xA", 1, "TOK", 18⟩ : Token)]
        ⟨true, some 5, "0xA", 1, 1, "", "0xme"⟩ =
      (BridgeOutcome.initiated (SubmitOp.lock "0xA" 5 1 "0xme"),
        [SubmitOp.lock "0xA" 5 1 "0xme"]) := by
  decide

/-- C8 amended: handleBridge rejects a missing or non-positive amount before
any submission, with the invalid-amount outcome and zero submit effects; it
performs no same-chain check and no destination-address validation. -/
theorem handleBridge_invalid_amount (tokens : List Token) (r : BridgeRequest)
    (hc : r.isConnected = true)
    (ha : r.amount = none ∨ ∃ a, r.amount = some a ∧ a ≤ 0) :
    handleBridge tokens r = (BridgeOutcome.invalidAmount, []) := by
  rcases ha with ha | ⟨a, ha, hle⟩
  · simp [handleBridge, hc, ha]
  · simp [handleBridge, hc, ha, hle]

/-- C8 witness: a concrete negative-amount request is rejected with no
submission. -/
theorem handleBridge_invalid_amount_witness :
    handleBridge [] ⟨true, some (-2), "0xA", 1, 56, "", "0xme"⟩ =
      (BridgeOutcome.invalidAmount, []) :=
  handleBridge_invalid_amount [] _ rfl (Or.inr ⟨-2, rfl, by norm_num⟩)

/-- C9: a ledger-reported fee field of 0 (absent fields read as 0) is
replaced by the default 250 bps, so the estimate coincides with the
fallback estimate and a declared zero rate is indistinguishable from the
fallback at this interface. -/
theorem zero_fee_field_uses_default (amountWei : Nat) :
    (estimateBridgeFee (some 0) amountWei = amountWei * 250 / 10000) ∧
    estimateBridgeFee (some 0) amountWei = estimateBridgeFee none amountWei := by
  constructor <;> rfl

/-- C10: a failed contract call inside checkFeeRequirements does not raise —
the call returns hasBalance false, hasAllowance false and zero balance and
allowance, identical to a genuinely unmet-requirements response. -/
theorem checkFeeRequirements_swallows (address : String) (e : Unit)
    (h : address ≠ "") :
    (checkFeeRequirements true address (Except.error e) =
      Except.ok ⟨false, false, 0, 0⟩) ∧
    checkFeeRequirements true address (Except.error e) =
      checkFeeRequirements true address (Except.ok ⟨false, false, 0, 0⟩) := by
  constructor <;> simp [checkFeeRequirements, h]

/-- C10 witness: a concrete failing check returns the all-false record. -/
theorem checkFeeRequirements_swallows_witness :
    checkFeeRequirements true "0xme" (Except.error ()) =
      Except.ok ⟨false, false, 0, 0⟩ :=
  (checkFeeRequirements_swallows "0xme" () (by decide)).1
